import Mathlib

/-!
Verification of the `eth` wire-protocol definitions of go-quai
(`eth/protocols/eth/protocol.go`): message-kind catalogue, protocol
version registry, the HashOrNumber union codec, packet shapes with
their Name/Kind facts, the eth/66 request-id envelopes, and the
message size cap.

The generic RLP codec is an external library to the file under study;
it is embedded here at the level of parsed RLP values (an RLP value is
a byte string or a list), with the canonical-integer and fixed-width
rules of that library made explicit.  Machine integers (uint64, byte)
are embedded as `Nat`; no arithmetic in the modelled code can overflow,
and where a bound matters (a uint64 fits in 8 bytes) it appears as an
explicit hypothesis `< 2 ^ 64`.
-/

/-- Big-endian minimal byte representation of a natural number: the
byte string the generic codec writes for an unsigned integer (empty
for zero, no leading zero byte otherwise). -/
def beBytes : Nat → List Nat
  | 0 => []
  | n + 1 => beBytes ((n + 1) / 256) ++ [(n + 1) % 256]
decreasing_by
  exact Nat.div_lt_self (Nat.succ_pos n) (by norm_num)

/-- Big-endian interpretation of a byte string as a natural number. -/
def fromBE (bs : List Nat) : Nat :=
  bs.foldl (fun acc b => acc * 256 + b) 0

/-- An embedding of `common.Hash`: a fixed-width 32-byte value. -/
def Hash := { l : List Nat // l.length = 32 }

instance : DecidableEq Hash := fun a b =>
  decidable_of_iff (a.val = b.val) Subtype.ext_iff.symm

/-- The zero value of `common.Hash` (`common.Hash{}` in the source). -/
def zeroHash : Hash := ⟨List.replicate 32 0, by simp⟩

/-- A parsed RLP value as the external `rlp` package presents it to a
decoder: either a byte string or a list of values.  (A single byte
below 0x80 is presented by the library as a size-0 Byte kind; that
distinction never changes which branch of the modelled code runs, so
the string's content length stands for the size tag here.) -/
inductive RLPItem where
  | str (bytes : List Nat)
  | list (items : List RLPItem)

mutual
/-- Total encoded length in bytes of an RLP value (header plus
payload), as the external codec computes it. -/
def RLPItem.encodedSize : RLPItem → Nat
  | .str bs =>
      if bs.length = 1 ∧ bs.headD 0 < 128 then 1
      else if bs.length < 56 then 1 + bs.length
      else 1 + (beBytes bs.length).length + bs.length

  | .list items =>
      let p := RLPItem.listPayloadSize items
      if p < 56 then 1 + p else 1 + (beBytes p).length + p

/-- Total encoded length of a sequence of RLP values. -/
def RLPItem.listPayloadSize : List RLPItem → Nat
  | [] => 0
  | i :: is => RLPItem.encodedSize i + RLPItem.listPayloadSize is
end

/-- The size tag `rlp.Stream.Kind` reports for a value: content length
of a string, payload length of a list. -/
def RLPItem.size : RLPItem → Nat
  | .str bs => bs.length
  | .list items => RLPItem.listPayloadSize items

/-- The protocol's failure taxonomy (the `errors.New` values of the
source file plus the two `fmt.Errorf` failures of the HashOrNumber
codec and the external codec's own decode failures), one distinguishable
kind per failure. -/
inductive ProtoError where
  | noStatusMsg
  | msgTooLarge
  | decodeErr
  | invalidMsgCode
  | protocolVersionMismatch
  | networkIDMismatch
  | genesisMismatch
  | forkIDRejected
  | locationMismatch
  | ambiguousOrigin (hash : Hash) (number : Nat)
  | invalidOriginSize (size : Nat)
  | rlpError
  deriving DecidableEq

/-- errMsgTooLarge of the source file ("message too long"). -/
def errMsgTooLarge : ProtoError := .msgTooLarge

/-- The generic codec's encoding of a uint64 (`rlp.Encode` on a
number): a string of its minimal big-endian bytes. -/
def rlpEncodeU64 (n : Nat) : RLPItem := .str (beBytes n)

/-- The generic codec's encoding of a 32-byte hash (`rlp.Encode` on a
`common.Hash`): a string of its 32 bytes. -/
def rlpEncodeHash (h : Hash) : RLPItem := .str h.val

/-- The generic codec's decoder for a `common.Hash`
(`s.Decode(&hn.Hash)`): accepts exactly a 32-byte string. -/
def rlpDecodeHash : RLPItem → Except ProtoError Hash
  | .str bs => if h : bs.length = 32 then .ok ⟨bs, h⟩ else .error .rlpError
  | .list _ => .error .rlpError

/-- The generic codec's decoder for a uint64 (`s.Decode(&hn.Number)`):
accepts a canonical integer, a string of at most 8 bytes with no
leading zero byte. -/
def rlpDecodeU64 : RLPItem → Except ProtoError Nat
  | .str bs =>
      if 8 < bs.length then .error .rlpError
      else if bs.head? = some 0 then .error .rlpError
      else .ok (fromBE bs)
  | .list _ => .error .rlpError

/-- HashOrNumber is a combined field for specifying an origin block. -/
structure HashOrNumber where
  Hash : Hash
  Number : Nat
  deriving DecidableEq

/-- EncodeRLP is a specialized encoder for HashOrNumber to encode only
one of the two contained union fields. -/
def HashOrNumber.EncodeRLP (hn : HashOrNumber) : Except ProtoError RLPItem :=
  if hn.Hash = zeroHash then
    .ok (rlpEncodeU64 hn.Number)
  else if hn.Number ≠ 0 then
    .error (.ambiguousOrigin hn.Hash hn.Number)
  else
    .ok (rlpEncodeHash hn.Hash)

/-- DecodeRLP is a specialized decoder for HashOrNumber to decode the
contents into either a block hash or a block number, dispatching on
the size tag; the field writes keep the source's order (the opposite
union field is cleared before the selected one is decoded). -/
def HashOrNumber.DecodeRLP (hn : HashOrNumber) (s : RLPItem) :
    Except ProtoError HashOrNumber :=
  let size := s.size
  if size = 32 then
    let hn1 : HashOrNumber := { hn with Number := 0 }
    match rlpDecodeHash s with
    | .ok h => .ok { hn1 with Hash := h }
    | .error e => .error e
  else if size ≤ 8 then
    let hn1 : HashOrNumber := { hn with Hash := zeroHash }
    match rlpDecodeU64 s with
    | .ok n => .ok { hn1 with Number := n }
    | .error e => .error e
  else
    .error (.invalidOriginSize size)

/-- A sample non-zero hash used to instantiate universally quantified
statements. -/
def oneHash : Hash := ⟨1 :: List.replicate 31 0, by simp⟩

theorem fromBE_concat (l : List Nat) (x : Nat) :
    fromBE (l ++ [x]) = fromBE l * 256 + x := by
  simp [fromBE, List.foldl_append]

theorem fromBE_beBytes (n : Nat) : fromBE (beBytes n) = n := by
  induction n using Nat.strong_induction_on with
  | _ n ih =>
    match n with
    | 0 => simp [beBytes, fromBE]
    | m + 1 =>
      rw [beBytes, fromBE_concat,
        ih ((m + 1) / 256) (Nat.div_lt_self (Nat.succ_pos m) (by norm_num))]
      omega

theorem beBytes_length_le (k : Nat) :
    ∀ n, n < 256 ^ k → (beBytes n).length ≤ k := by
  induction k with
  | zero =>
    intro n h
    interval_cases n
    simp [beBytes]
  | succ k ih =>
    intro n h
    match n with
    | 0 => simp [beBytes]
    | m + 1 =>
      rw [beBytes]
      have hdiv : (m + 1) / 256 < 256 ^ k := by
        rw [Nat.div_lt_iff_lt_mul (by norm_num)]
        calc m + 1 < 256 ^ (k + 1) := h
          _ = 256 ^ k * 256 := by ring
      have := ih ((m + 1) / 256) hdiv
      simp only [List.length_append, List.length_singleton]
      omega

theorem beBytes_cons_of_ne_zero (n : Nat) (h : n ≠ 0) :
    ∃ b bs, beBytes n = b :: bs ∧ b ≠ 0 := by
  induction n using Nat.strong_induction_on with
  | _ n ih =>
    match n with
    | 0 => exact absurd rfl h
    | m + 1 =>
      rw [beBytes]
      by_cases hq : (m + 1) / 256 = 0
      · have hlt : m + 1 < 256 := by
          by_contra hge
          have : 0 < (m + 1) / 256 := Nat.div_pos (by omega) (by norm_num)
          omega
        refine ⟨(m + 1) % 256, [], ?_, ?_⟩
        · rw [hq]; simp [beBytes]
        · rw [Nat.mod_eq_of_lt hlt]; omega
      · obtain ⟨b, bs, hbs, hb⟩ :=
          ih ((m + 1) / 256)
            (Nat.div_lt_self (Nat.succ_pos m) (by norm_num)) hq
        exact ⟨b, bs ++ [(m + 1) % 256], by rw [hbs]; simp, hb⟩

theorem beBytes_head?_ne_some_zero (n : Nat) :
    (beBytes n).head? ≠ some 0 := by
  by_cases h : n = 0
  · subst h; simp [beBytes]
  · obtain ⟨b, bs, hbs, hb⟩ := beBytes_cons_of_ne_zero n h
    rw [hbs]
    simp [hb]

/-- C2: EncodeRLP on (hash, number): a zero hash emits the number via
the generic numeric encoding; a non-zero hash together with a non-zero
number fails with the ambiguous-origin error (no field is silently
dropped); a non-zero hash with number zero emits the hash via the
generic fixed-width-bytes encoding. -/
theorem EncodeRLP_branches (hn : HashOrNumber) :
    (hn.Hash = zeroHash → hn.EncodeRLP = .ok (rlpEncodeU64 hn.Number)) ∧
    (hn.Hash ≠ zeroHash → hn.Number ≠ 0 →
      hn.EncodeRLP = .error (.ambiguousOrigin hn.Hash hn.Number)) ∧
    (hn.Hash ≠ zeroHash → hn.Number = 0 →
      hn.EncodeRLP = .ok (rlpEncodeHash hn.Hash)) := by
  unfold HashOrNumber.EncodeRLP
  exact ⟨fun h => by simp [h],
    fun h h2 => by simp [h, h2],
    fun h h2 => by simp [h, h2]⟩

/-- Witness for C2: the three branches at concrete inputs. -/
theorem EncodeRLP_branches_witness :
    (HashOrNumber.mk zeroHash 5).EncodeRLP = .ok (rlpEncodeU64 5) ∧
    (HashOrNumber.mk oneHash 5).EncodeRLP =
      .error (.ambiguousOrigin oneHash 5) ∧
    (HashOrNumber.mk oneHash 0).EncodeRLP = .ok (rlpEncodeHash oneHash) :=
  ⟨(EncodeRLP_branches _).1 rfl,
   (EncodeRLP_branches _).2.1 (by decide) (by decide),
   (EncodeRLP_branches _).2.2 (by decide) rfl⟩

/-- C3: DecodeRLP dispatches on the incoming value's size tag: size 32
decodes the value as a hash with the number component set to zero,
size at most 8 decodes it as a number with the hash component set to
the zero hash, and every other size fails with the invalid-origin-size
error. -/
theorem DecodeRLP_dispatch (prior : HashOrNumber) (s : RLPItem) :
    (s.size = 32 →
      HashOrNumber.DecodeRLP prior s =
        (rlpDecodeHash s).map (fun h => ⟨h, 0⟩)) ∧
    (s.size ≠ 32 → s.size ≤ 8 →
      HashOrNumber.DecodeRLP prior s =
        (rlpDecodeU64 s).map (fun n => ⟨zeroHash, n⟩)) ∧
    (s.size ≠ 32 → 8 < s.size →
      HashOrNumber.DecodeRLP prior s =
        .error (.invalidOriginSize s.size)) := by
  unfold HashOrNumber.DecodeRLP
  refine ⟨fun h32 => ?_, fun hne hle => ?_, fun hne hgt => ?_⟩
  · cases hd : rlpDecodeHash s <;> simp [h32, hd, Except.map]
  · cases hd : rlpDecodeU64 s <;> simp [hne, hle, hd, Except.map]
  · simp [hne, Nat.not_le.mpr hgt]

/-- Witness for C3: the three size classes at concrete inputs (a
32-byte blob, a 1-byte blob, a 9-byte blob). -/
theorem DecodeRLP_dispatch_witness :
    (HashOrNumber.DecodeRLP ⟨oneHash, 7⟩ (.str (List.replicate 32 2)) =
      (rlpDecodeHash (.str (List.replicate 32 2))).map (fun h => ⟨h, 0⟩)) ∧
    (HashOrNumber.DecodeRLP ⟨oneHash, 7⟩ (.str [5]) =
      (rlpDecodeU64 (.str [5])).map (fun n => ⟨zeroHash, n⟩)) ∧
    (HashOrNumber.DecodeRLP ⟨oneHash, 7⟩ (.str (List.replicate 9 1)) =
      .error (.invalidOriginSize 9)) :=
  ⟨(DecodeRLP_dispatch _ _).1 (by decide),
   (DecodeRLP_dispatch _ _).2.1 (by decide) (by decide),
   (DecodeRLP_dispatch _ _).2.2 (by decide) (by decide)⟩

/-- Another sample hash, distinct from `zeroHash` and `oneHash`. -/
def twoHash : Hash := ⟨List.replicate 32 2, by simp⟩

/-- C1: for every valid origin selector (hash non-zero with number
zero, or hash equal to the zero hash with any number fitting a
uint64), EncodeRLP succeeds and DecodeRLP of the encoded value, from
any prior struct contents, restores exactly the original pair. -/
theorem EncodeRLP_DecodeRLP_roundtrip (hn prior : HashOrNumber)
    (hvalid : (hn.Hash ≠ zeroHash ∧ hn.Number = 0) ∨ hn.Hash = zeroHash)
    (hbound : hn.Number < 2 ^ 64) :
    ∃ item, hn.EncodeRLP = Except.ok item ∧
      HashOrNumber.DecodeRLP prior item = Except.ok hn := by
  rcases hvalid with ⟨hne, h0⟩ | hz
  · refine ⟨rlpEncodeHash hn.Hash, ?_, ?_⟩
    · unfold HashOrNumber.EncodeRLP
      simp [hne, h0]
    · unfold HashOrNumber.DecodeRLP
      simp [RLPItem.size, rlpEncodeHash, rlpDecodeHash, hn.Hash.property,
        h0.symm]
  · refine ⟨rlpEncodeU64 hn.Number, ?_, ?_⟩
    · unfold HashOrNumber.EncodeRLP
      simp [hz]
    · have hb2 : hn.Number < 256 ^ 8 := by
        calc hn.Number < 2 ^ 64 := hbound
          _ = 256 ^ 8 := by norm_num
      have hlen : (beBytes hn.Number).length ≤ 8 := beBytes_length_le 8 _ hb2
      have hs : (rlpEncodeU64 hn.Number).size = (beBytes hn.Number).length := rfl
      unfold HashOrNumber.DecodeRLP
      rw [hs]
      have hne32 : ¬((beBytes hn.Number).length = 32) := by omega
      have hngt : ¬(8 < (beBytes hn.Number).length) := by omega
      simp only [hne32, if_false, if_pos hlen]
      unfold rlpEncodeU64 rlpDecodeU64
      simp [hngt, beBytes_head?_ne_some_zero, fromBE_beBytes, hz.symm]

/-- Witness for C1: the round trip at a concrete hash-only selector
and at a concrete number-only selector, each decoded over a dirty
prior struct. -/
theorem EncodeRLP_DecodeRLP_roundtrip_witness :
    (∃ item, (HashOrNumber.mk oneHash 0).EncodeRLP = Except.ok item ∧
      HashOrNumber.DecodeRLP ⟨zeroHash, 9⟩ item =
        Except.ok ⟨oneHash, 0⟩) ∧
    (∃ item, (HashOrNumber.mk zeroHash 77).EncodeRLP = Except.ok item ∧
      HashOrNumber.DecodeRLP ⟨oneHash, 3⟩ item =
        Except.ok ⟨zeroHash, 77⟩) :=
  ⟨EncodeRLP_DecodeRLP_roundtrip ⟨oneHash, 0⟩ ⟨zeroHash, 9⟩
      (Or.inl ⟨by decide, rfl⟩) (by norm_num),
   EncodeRLP_DecodeRLP_roundtrip ⟨zeroHash, 77⟩ ⟨oneHash, 3⟩
      (Or.inr rfl) (by norm_num)⟩

/-- C10: whatever the struct held before the call and whatever the
input value, a successful DecodeRLP leaves the union invariant
re-established: the hash component is the zero hash or the number
component is zero. -/
theorem DecodeRLP_union_invariant (prior hn' : HashOrNumber) (s : RLPItem)
    (h : HashOrNumber.DecodeRLP prior s = Except.ok hn') :
    hn'.Hash = zeroHash ∨ hn'.Number = 0 := by
  unfold HashOrNumber.DecodeRLP at h
  by_cases h32 : s.size = 32
  · -- size 32: the number component was cleared
    cases hd : rlpDecodeHash s with
    | error e => simp [h32, hd] at h
    | ok v =>
      right
      simp [h32, hd] at h
      rw [← h]
  · by_cases h8 : s.size ≤ 8
    · -- size at most 8: the hash component was cleared
      cases hd : rlpDecodeU64 s with
      | error e => simp [h32, h8, hd] at h
      | ok n =>
        left
        simp [h32, h8, hd] at h
        rw [← h]
    · simp [h32, h8] at h

/-- Witness for C10: decoding a 32-byte blob over a prior struct whose
fields are both non-zero yields a struct satisfying the invariant. -/
theorem DecodeRLP_union_invariant_witness :
    (HashOrNumber.mk twoHash 0).Hash = zeroHash ∨
      (HashOrNumber.mk twoHash 0).Number = 0 :=
  DecodeRLP_union_invariant ⟨oneHash, 7⟩ ⟨twoHash, 0⟩
    (.str (List.replicate 32 2)) (by rfl)

/-! ## Protocol versions, message codes, registry -/

def ETH65 : Nat := 65

def ETH66 : Nat := 66

/-- ProtocolVersions are the supported versions of the `eth` protocol
(first is primary). -/
def ProtocolVersions : List Nat := [ETH66, ETH65]

/-- protocolLengths are the number of implemented message
corresponding to different protocol versions (the Go map literal
`ETH66: 21, ETH65: 19`, unknown versions absent). -/
def protocolLengths : Nat → Option Nat := fun v =>
  if v = ETH66 then some 21 else if v = ETH65 then some 19 else none

/-- maxMessageSize is the maximum cap on the size of a protocol
message. -/
def maxMessageSize : Nat := 10 * 1024 * 1024

def StatusMsg : Nat := 0x00

def NewBlockHashesMsg : Nat := 0x01

def TransactionsMsg : Nat := 0x02

def GetBlockHeadersMsg : Nat := 0x03

def BlockHeadersMsg : Nat := 0x04

def GetBlockBodiesMsg : Nat := 0x05

def BlockBodiesMsg : Nat := 0x06

def NewBlockMsg : Nat := 0x07

def GetNodeDataMsg : Nat := 0x0d

def NodeDataMsg : Nat := 0x0e

def GetReceiptsMsg : Nat := 0x0f

def ReceiptsMsg : Nat := 0x10

def NewPooledTransactionHashesMsg : Nat := 0x08

def GetPooledTransactionsMsg : Nat := 0x09

def PooledTransactionsMsg : Nat := 0x0a

def GetBlockMsg : Nat := 0x0b

def PendingEtxsMsg : Nat := 0x11

def GetOnePendingEtxsMsg : Nat := 0x12

def PendingEtxsRollupMsg : Nat := 0x13

def GetOnePendingEtxsRollupMsg : Nat := 0x14

/-- The full list of message kind constants the source file defines,
`StatusMsg` through `GetOnePendingEtxsRollupMsg`. -/
def msgCodeCatalogue : List Nat :=
  [StatusMsg, NewBlockHashesMsg, TransactionsMsg, GetBlockHeadersMsg,
   BlockHeadersMsg, GetBlockBodiesMsg, BlockBodiesMsg, NewBlockMsg,
   GetNodeDataMsg, NodeDataMsg, GetReceiptsMsg, ReceiptsMsg,
   NewPooledTransactionHashesMsg, GetPooledTransactionsMsg,
   PooledTransactionsMsg, GetBlockMsg, PendingEtxsMsg,
   GetOnePendingEtxsMsg, PendingEtxsRollupMsg, GetOnePendingEtxsRollupMsg]

/-! ## Packet catalogue

The domain value types owned by external packages (`types.Transaction`,
`types.Header`, `types.Block`, `types.Receipt`, `types.PendingEtxs`,
`types.PendingEtxsRollup`, `forkid.ID`, `rlp.RawValue`) are opaque to
the file under study; they are embedded as plain carriers whose
internal structure the modelled code never inspects. -/

/-- Stand-in for the external `types.Transaction`. -/
structure Transaction where
  payload : Nat
  deriving DecidableEq

/-- Stand-in for the external `types.Header`. -/
structure Header where
  payload : Nat
  deriving DecidableEq

/-- Stand-in for the external `types.Block`. -/
structure Block where
  payload : Nat
  deriving DecidableEq

/-- Stand-in for the external `types.Receipt`. -/
structure Receipt where
  payload : Nat
  deriving DecidableEq

/-- Stand-in for the external `types.PendingEtxs`. -/
structure PendingEtxs where
  payload : Nat
  deriving DecidableEq

/-- Stand-in for the external `types.PendingEtxsRollup`. -/
structure PendingEtxsRollup where
  payload : Nat
  deriving DecidableEq

/-- Stand-in for the external `forkid.ID` (a 4-byte checksum and a
next-fork block number). -/
structure ForkID where
  forkHash : List Nat
  next : Nat
  deriving DecidableEq

/-- The external `types.BlockManifest`, an ordered list of sub-block
hashes. -/
abbrev BlockManifest := List Hash

/-- The external `rlp.RawValue`, an already-encoded byte blob. -/
abbrev RawValue := List Nat

/-- StatusPacket is the network packet for the status message. -/
structure StatusPacket where
  ProtocolVersion : Nat
  NetworkID : Nat
  Location : String
  Entropy : Int
  Head : Hash
  Genesis : Hash
  ForkID : ForkID

/-- One entry of a block announcement (the anonymous element struct of
`NewBlockHashesPacket`). -/
structure BlockAnnounce where
  Hash : Hash
  Number : Nat
  deriving DecidableEq

/-- NewBlockHashesPacket is the network packet for the block
announcements. -/
abbrev NewBlockHashesPacket := List BlockAnnounce

/-- Unpack retrieves the block hashes and numbers from the
announcement packet and returns them in a split flat format. -/
def NewBlockHashesPacket.Unpack (p : NewBlockHashesPacket) :
    List Hash × List Nat :=
  (p.map fun e => e.Hash, p.map fun e => e.Number)

/-- TransactionsPacket is the network packet for broadcasting new
transactions. -/
abbrev TransactionsPacket := List Transaction

/-- GetBlockHeadersPacket represents a block header query. -/
structure GetBlockHeadersPacket where
  Origin : HashOrNumber
  Amount : Nat
  Dom : Bool
  Reverse : Bool
  To : Nat
  Skip : Nat

/-- GetBlockHeadersPacket66 represents a block header query over
eth/66: the request id plus the embedded eth/65 payload. -/
structure GetBlockHeadersPacket66 where
  RequestId : Nat
  GetBlockHeadersPacket : GetBlockHeadersPacket

/-- BlockHeadersPacket represents a block header response. -/
abbrev BlockHeadersPacket := List Header

/-- BlockHeadersPacket66 represents a block header response over
eth/66. -/
structure BlockHeadersPacket66 where
  RequestId : Nat
  BlockHeadersPacket : BlockHeadersPacket

/-- NewBlockPacket is the network packet for the block propagation
message. -/
structure NewBlockPacket where
  Block : Block

/-- GetBlockBodiesPacket represents a block body query. -/
abbrev GetBlockBodiesPacket := List Hash

/-- GetBlockBodiesPacket66 represents a block body query over
eth/66. -/
structure GetBlockBodiesPacket66 where
  RequestId : Nat
  GetBlockBodiesPacket : GetBlockBodiesPacket

/-- BlockBody represents the data content of a single block. -/
structure BlockBody where
  Transactions : List Transaction
  Uncles : List Header
  ExtTransactions : List Transaction
  SubManifest : BlockManifest
  deriving DecidableEq

/-- BlockBodiesPacket is the network packet for block content
distribution. -/
abbrev BlockBodiesPacket := List BlockBody

/-- BlockBodiesPacket66 is the network packet for block content
distribution over eth/66. -/
structure BlockBodiesPacket66 where
  RequestId : Nat
  BlockBodiesPacket : BlockBodiesPacket

/-- BlockBodiesRLPPacket is used for replying to block body requests
from already RLP-encoded bytes. -/
abbrev BlockBodiesRLPPacket := List RawValue

/-- BlockBodiesRLPPacket66 is the BlockBodiesRLPPacket over eth/66. -/
structure BlockBodiesRLPPacket66 where
  RequestId : Nat
  BlockBodiesRLPPacket : BlockBodiesRLPPacket

/-- Unpack retrieves the transactions, uncles, external transactions
and manifests from the range packet and returns them in a split flat
format. -/
def BlockBodiesPacket.Unpack (p : BlockBodiesPacket) :
    List (List Transaction) × List (List Header) ×
      List (List Transaction) × List BlockManifest :=
  (p.map fun b => b.Transactions, p.map fun b => b.Uncles,
   p.map fun b => b.ExtTransactions, p.map fun b => b.SubManifest)

/-- GetNodeDataPacket represents a trie node data query. -/
abbrev GetNodeDataPacket := List Hash

/-- GetNodeDataPacket66 represents a trie node data query over
eth/66. -/
structure GetNodeDataPacket66 where
  RequestId : Nat
  GetNodeDataPacket : GetNodeDataPacket

/-- NodeDataPacket is the network packet for trie node data
distribution. -/
abbrev NodeDataPacket := List (List Nat)

/-- NodeDataPacket66 is the network packet for trie node data
distribution over eth/66. -/
structure NodeDataPacket66 where
  RequestId : Nat
  NodeDataPacket : NodeDataPacket

/-- GetReceiptsPacket represents a block receipts query. -/
abbrev GetReceiptsPacket := List Hash

/-- GetReceiptsPacket66 represents a block receipts query over
eth/66. -/
structure GetReceiptsPacket66 where
  RequestId : Nat
  GetReceiptsPacket : GetReceiptsPacket

/-- ReceiptsPacket is the network packet for block receipts
distribution. -/
abbrev ReceiptsPacket := List (List Receipt)

/-- ReceiptsPacket66 is the network packet for block receipts
distribution over eth/66. -/
structure ReceiptsPacket66 where
  RequestId : Nat
  ReceiptsPacket : ReceiptsPacket

/-- ReceiptsRLPPacket is used for receipts already in encoded form. -/
abbrev ReceiptsRLPPacket := List RawValue

/-- ReceiptsRLPPacket66 is the eth/66 version of ReceiptsRLPPacket. -/
structure ReceiptsRLPPacket66 where
  RequestId : Nat
  ReceiptsRLPPacket : ReceiptsRLPPacket

/-- NewPooledTransactionHashesPacket represents a transaction
announcement packet. -/
abbrev NewPooledTransactionHashesPacket := List Hash

/-- GetPooledTransactionsPacket represents a transaction query. -/
abbrev GetPooledTransactionsPacket := List Hash

/-- GetPooledTransactionsPacket66 is the eth/66 transaction query. -/
structure GetPooledTransactionsPacket66 where
  RequestId : Nat
  GetPooledTransactionsPacket : GetPooledTransactionsPacket

/-- PooledTransactionsPacket is the network packet for transaction
distribution. -/
abbrev PooledTransactionsPacket := List Transaction

/-- PooledTransactionsPacket66 is the network packet for transaction
distribution over eth/66. -/
structure PooledTransactionsPacket66 where
  RequestId : Nat
  PooledTransactionsPacket : PooledTransactionsPacket

/-- PooledTransactionsRLPPacket carries transactions already in
encoded form. -/
abbrev PooledTransactionsRLPPacket := List RawValue

/-- PooledTransactionsRLPPacket66 is the eth/66 form of
PooledTransactionsRLPPacket. -/
structure PooledTransactionsRLPPacket66 where
  RequestId : Nat
  PooledTransactionsRLPPacket : PooledTransactionsRLPPacket

/-- GetBlockPacket is the network packet for block fetching. -/
structure GetBlockPacket where
  Hash : Hash

/-- GetBlockPacket66 is the eth/66 version of the GetBlockPacket. -/
structure GetBlockPacket66 where
  RequestId : Nat
  GetBlockPacket : GetBlockPacket

/-- GetOnePendingEtxsPacket represents a pending etx query. -/
structure GetOnePendingEtxsPacket where
  Hash : Hash

structure GetOnePendingEtxsPacket66 where
  RequestId : Nat
  GetOnePendingEtxsPacket : GetOnePendingEtxsPacket

/-- GetOnePendingEtxsRollupPacket represents a pending etx rollup
query. -/
structure GetOnePendingEtxsRollupPacket where
  Hash : Hash

structure GetOnePendingEtxsRollupPacket66 where
  RequestId : Nat
  GetOnePendingEtxsRollupPacket : GetOnePendingEtxsRollupPacket

structure PendingEtxsPacket where
  PendingEtxs : PendingEtxs

structure PendingEtxsPacket66 where
  RequestId : Nat
  PendingEtxsPacket : PendingEtxsPacket

structure PendingEtxsRollupPacket where
  PendingEtxsRollup : PendingEtxsRollup

structure PendingEtxsRollupPacket66 where
  RequestId : Nat
  PendingEtxsRollupPacket : PendingEtxsRollupPacket

/-! ## Name and Kind methods (the `Packet` interface implementations) -/

def StatusPacket.Name (_ : StatusPacket) : String := "Status"

def StatusPacket.Kind (_ : StatusPacket) : Nat := StatusMsg

def NewBlockHashesPacket.Name (_ : NewBlockHashesPacket) : String :=
  "NewBlockHashes"

def NewBlockHashesPacket.Kind (_ : NewBlockHashesPacket) : Nat :=
  NewBlockHashesMsg

def TransactionsPacket.Name (_ : TransactionsPacket) : String :=
  "Transactions"

def TransactionsPacket.Kind (_ : TransactionsPacket) : Nat :=
  TransactionsMsg

def GetBlockHeadersPacket.Name (_ : GetBlockHeadersPacket) : String :=
  "GetBlockHeaders"

def GetBlockHeadersPacket.Kind (_ : GetBlockHeadersPacket) : Nat :=
  GetBlockHeadersMsg

def BlockHeadersPacket.Name (_ : BlockHeadersPacket) : String :=
  "BlockHeaders"

def BlockHeadersPacket.Kind (_ : BlockHeadersPacket) : Nat :=
  BlockHeadersMsg

def GetBlockBodiesPacket.Name (_ : GetBlockBodiesPacket) : String :=
  "GetBlockBodies"

def GetBlockBodiesPacket.Kind (_ : GetBlockBodiesPacket) : Nat :=
  GetBlockBodiesMsg

def BlockBodiesPacket.Name (_ : BlockBodiesPacket) : String :=
  "BlockBodies"

def BlockBodiesPacket.Kind (_ : BlockBodiesPacket) : Nat :=
  BlockBodiesMsg

def NewBlockPacket.Name (_ : NewBlockPacket) : String := "NewBlock"

def NewBlockPacket.Kind (_ : NewBlockPacket) : Nat := NewBlockMsg

def GetNodeDataPacket.Name (_ : GetNodeDataPacket) : String :=
  "GetNodeData"

def GetNodeDataPacket.Kind (_ : GetNodeDataPacket) : Nat :=
  GetNodeDataMsg

def NodeDataPacket.Name (_ : NodeDataPacket) : String := "NodeData"

def NodeDataPacket.Kind (_ : NodeDataPacket) : Nat := NodeDataMsg

def GetReceiptsPacket.Name (_ : GetReceiptsPacket) : String :=
  "GetReceipts"

def GetReceiptsPacket.Kind (_ : GetReceiptsPacket) : Nat :=
  GetReceiptsMsg

def ReceiptsPacket.Name (_ : ReceiptsPacket) : String := "Receipts"

def ReceiptsPacket.Kind (_ : ReceiptsPacket) : Nat := ReceiptsMsg

def NewPooledTransactionHashesPacket.Name
    (_ : NewPooledTransactionHashesPacket) : String :=
  "NewPooledTransactionHashes"

def NewPooledTransactionHashesPacket.Kind
    (_ : NewPooledTransactionHashesPacket) : Nat :=
  NewPooledTransactionHashesMsg

def GetPooledTransactionsPacket.Name
    (_ : GetPooledTransactionsPacket) : String :=
  "GetPooledTransactions"

def GetPooledTransactionsPacket.Kind
    (_ : GetPooledTransactionsPacket) : Nat :=
  GetPooledTransactionsMsg

def PooledTransactionsPacket.Name (_ : PooledTransactionsPacket) : String :=
  "PooledTransactions"

def PooledTransactionsPacket.Kind (_ : PooledTransactionsPacket) : Nat :=
  PooledTransactionsMsg

def GetBlockPacket.Name (_ : GetBlockPacket) : String := "GetBlock"

def GetBlockPacket.Kind (_ : GetBlockPacket) : Nat := GetBlockMsg

def GetOnePendingEtxsPacket.Name (_ : GetOnePendingEtxsPacket) : String :=
  "GetOnePendingEtxs"

def GetOnePendingEtxsPacket.Kind (_ : GetOnePendingEtxsPacket) : Nat :=
  GetOnePendingEtxsMsg

def PendingEtxsPacket.Name (_ : PendingEtxsPacket) : String :=
  "PendingEtxs"

def PendingEtxsPacket.Kind (_ : PendingEtxsPacket) : Nat :=
  PendingEtxsMsg

def PendingEtxsRollupPacket.Name (_ : PendingEtxsRollupPacket) : String :=
  "PendingEtxsManifest"

def PendingEtxsRollupPacket.Kind (_ : PendingEtxsRollupPacket) : Nat :=
  PendingEtxsRollupMsg

/-- Modelled from the spec: the transport-side dispatch guard.  The
source file defines only the cap `maxMessageSize` and the failure
value `errMsgTooLarge`; the handler loop enforcing them lives outside
the given source and is modelled here from the spec's words: "any
single protocol message's serialized size exceeding 10 MiB must be
rejected before decoding is attempted". -/
def handleMsg {α : Type} (kind : Nat) (size : Nat)
    (decodeBody : Nat → Except ProtoError α) : Except ProtoError α :=
  if size > maxMessageSize then .error errMsgTooLarge else decodeBody kind

/-! ## Claim theorems on the catalogue, registry, envelopes and cap -/

/-- C4: the twenty message kind codes of the catalogue, `StatusMsg`
0x00 through `GetOnePendingEtxsRollupMsg` 0x14, are pairwise distinct,
and so are the values returned by the nineteen `Kind` methods, on any
instances whatsoever: no two semantic message types share a code. -/
theorem kind_codes_globally_distinct :
    msgCodeCatalogue.Nodup ∧
    ∀ (p1 : StatusPacket) (p2 : NewBlockHashesPacket)
      (p3 : TransactionsPacket) (p4 : GetBlockHeadersPacket)
      (p5 : BlockHeadersPacket) (p6 : GetBlockBodiesPacket)
      (p7 : BlockBodiesPacket) (p8 : NewBlockPacket)
      (p9 : GetNodeDataPacket) (p10 : NodeDataPacket)
      (p11 : GetReceiptsPacket) (p12 : ReceiptsPacket)
      (p13 : NewPooledTransactionHashesPacket)
      (p14 : GetPooledTransactionsPacket) (p15 : PooledTransactionsPacket)
      (p16 : GetBlockPacket) (p17 : GetOnePendingEtxsPacket)
      (p18 : PendingEtxsPacket) (p19 : PendingEtxsRollupPacket),
      List.Nodup
        [StatusPacket.Kind p1, NewBlockHashesPacket.Kind p2,
         TransactionsPacket.Kind p3, GetBlockHeadersPacket.Kind p4,
         BlockHeadersPacket.Kind p5, GetBlockBodiesPacket.Kind p6,
         BlockBodiesPacket.Kind p7, NewBlockPacket.Kind p8,
         GetNodeDataPacket.Kind p9, NodeDataPacket.Kind p10,
         GetReceiptsPacket.Kind p11, ReceiptsPacket.Kind p12,
         NewPooledTransactionHashesPacket.Kind p13,
         GetPooledTransactionsPacket.Kind p14,
         PooledTransactionsPacket.Kind p15, GetBlockPacket.Kind p16,
         GetOnePendingEtxsPacket.Kind p17, PendingEtxsPacket.Kind p18,
         PendingEtxsRollupPacket.Kind p19] := by
  constructor
  · decide
  · intros
    simp only [StatusPacket.Kind, NewBlockHashesPacket.Kind,
      TransactionsPacket.Kind, GetBlockHeadersPacket.Kind,
      BlockHeadersPacket.Kind, GetBlockBodiesPacket.Kind,
      BlockBodiesPacket.Kind, NewBlockPacket.Kind, GetNodeDataPacket.Kind,
      NodeDataPacket.Kind, GetReceiptsPacket.Kind, ReceiptsPacket.Kind,
      NewPooledTransactionHashesPacket.Kind, GetPooledTransactionsPacket.Kind,
      PooledTransactionsPacket.Kind, GetBlockPacket.Kind,
      GetOnePendingEtxsPacket.Kind, PendingEtxsPacket.Kind,
      PendingEtxsRollupPacket.Kind]
    decide

/-- C5: the unpack projections preserve length and order: for an
announcement batch the two output sequences have one element per input
entry taken from that entry, and for a body batch the four output
sequences likewise, for every batch including the empty one. -/
theorem unpack_preserves_length_and_order
    (p : NewBlockHashesPacket) (q : BlockBodiesPacket) :
    ((NewBlockHashesPacket.Unpack p).1.length = p.length ∧
     (NewBlockHashesPacket.Unpack p).2.length = p.length ∧
     ∀ i : Nat,
       (NewBlockHashesPacket.Unpack p).1[i]? =
         (p[i]?).map (fun e => e.Hash) ∧
       (NewBlockHashesPacket.Unpack p).2[i]? =
         (p[i]?).map (fun e => e.Number)) ∧
    ((BlockBodiesPacket.Unpack q).1.length = q.length ∧
     (BlockBodiesPacket.Unpack q).2.1.length = q.length ∧
     (BlockBodiesPacket.Unpack q).2.2.1.length = q.length ∧
     (BlockBodiesPacket.Unpack q).2.2.2.length = q.length ∧
     ∀ i : Nat,
       (BlockBodiesPacket.Unpack q).1[i]? =
         (q[i]?).map (fun b => b.Transactions) ∧
       (BlockBodiesPacket.Unpack q).2.1[i]? =
         (q[i]?).map (fun b => b.Uncles) ∧
       (BlockBodiesPacket.Unpack q).2.2.1[i]? =
         (q[i]?).map (fun b => b.ExtTransactions) ∧
       (BlockBodiesPacket.Unpack q).2.2.2[i]? =
         (q[i]?).map (fun b => b.SubManifest)) := by
  refine ⟨⟨?_, ?_, fun i => ⟨?_, ?_⟩⟩, ?_, ?_, ?_, ?_, fun i => ⟨?_, ?_, ?_, ?_⟩⟩ <;>
    simp [NewBlockHashesPacket.Unpack, BlockBodiesPacket.Unpack,
      List.getElem?_map]

/-- C6: the eth/66 envelope is purely additive: it is a pair of the
correlation identifier and the untouched inner payload, and projecting
the two fields of the constructed wrapper recovers the identifier and
the original payload exactly (and every wrapper is nothing more than
these two fields). -/
theorem envelope_wrap_unwrap_roundtrip
    (r : Nat) (p : GetBlockHeadersPacket) (q : BlockBodiesPacket) :
    (GetBlockHeadersPacket66.mk r p).RequestId = r ∧
    (GetBlockHeadersPacket66.mk r p).GetBlockHeadersPacket = p ∧
    (BlockBodiesPacket66.mk r q).RequestId = r ∧
    (BlockBodiesPacket66.mk r q).BlockBodiesPacket = q ∧
    (∀ w : GetBlockHeadersPacket66,
      GetBlockHeadersPacket66.mk w.RequestId w.GetBlockHeadersPacket = w) ∧
    (∀ w : BlockBodiesPacket66,
      BlockBodiesPacket66.mk w.RequestId w.BlockBodiesPacket = w) :=
  ⟨rfl, rfl, rfl, rfl, fun _ => rfl, fun _ => rfl⟩

/-- C7: the registry maps the older version 65 to 19 implemented
message kinds and the newer version 66 to 21, and the supported
version list puts the newer version first. -/
theorem protocol_registry_lengths_and_preference :
    protocolLengths ETH65 = some 19 ∧
    protocolLengths ETH66 = some 21 ∧
    ProtocolVersions = [ETH66, ETH65] ∧
    ProtocolVersions.head? = some ETH66 ∧
    ETH65 < ETH66 := by
  refine ⟨?_, ?_, rfl, rfl, ?_⟩ <;> decide

/-- C8: the message size cap is exactly 10 MiB, and any message whose
serialized size exceeds it is rejected with the message-too-large
error for every message kind and every body decoder — the decoder is
never consulted. -/
theorem oversized_message_rejected_before_decode (α : Type)
    (kind size : Nat) (decodeBody : Nat → Except ProtoError α)
    (h : maxMessageSize < size) :
    maxMessageSize = 10 * 1024 * 1024 ∧
    handleMsg kind size decodeBody = .error errMsgTooLarge :=
  ⟨rfl, by simp [handleMsg, h]⟩

/-- Witness for C8: a 10 MiB + 1 byte status message is rejected even
though its body decoder would have succeeded. -/
theorem oversized_message_rejected_before_decode_witness :
    maxMessageSize = 10 * 1024 * 1024 ∧
    handleMsg StatusMsg (10 * 1024 * 1024 + 1)
      (fun _ => Except.ok (0 : Nat)) = .error errMsgTooLarge :=
  oversized_message_rejected_before_decode Nat StatusMsg
    (10 * 1024 * 1024 + 1) (fun _ => Except.ok 0) (by norm_num [maxMessageSize])

/-- C9: each of the nineteen packet shapes implementing the `Packet`
interface reports the same name and the same kind code on every one of
its instances: both facts are value-independent constants of the
shape. -/
theorem name_kind_constant_per_shape :
    (∀ p : StatusPacket,
      StatusPacket.Name p = "Status" ∧ StatusPacket.Kind p = StatusMsg) ∧
    (∀ p : NewBlockHashesPacket,
      NewBlockHashesPacket.Name p = "NewBlockHashes" ∧
        NewBlockHashesPacket.Kind p = NewBlockHashesMsg) ∧
    (∀ p : TransactionsPacket,
      TransactionsPacket.Name p = "Transactions" ∧
        TransactionsPacket.Kind p = TransactionsMsg) ∧
    (∀ p : GetBlockHeadersPacket,
      GetBlockHeadersPacket.Name p = "GetBlockHeaders" ∧
        GetBlockHeadersPacket.Kind p = GetBlockHeadersMsg) ∧
    (∀ p : BlockHeadersPacket,
      BlockHeadersPacket.Name p = "BlockHeaders" ∧
        BlockHeadersPacket.Kind p = BlockHeadersMsg) ∧
    (∀ p : GetBlockBodiesPacket,
      GetBlockBodiesPacket.Name p = "GetBlockBodies" ∧
        GetBlockBodiesPacket.Kind p = GetBlockBodiesMsg) ∧
    (∀ p : BlockBodiesPacket,
      BlockBodiesPacket.Name p = "BlockBodies" ∧
        BlockBodiesPacket.Kind p = BlockBodiesMsg) ∧
    (∀ p : NewBlockPacket,
      NewBlockPacket.Name p = "NewBlock" ∧
        NewBlockPacket.Kind p = NewBlockMsg) ∧
    (∀ p : GetNodeDataPacket,
      GetNodeDataPacket.Name p = "GetNodeData" ∧
        GetNodeDataPacket.Kind p = GetNodeDataMsg) ∧
    (∀ p : NodeDataPacket,
      NodeDataPacket.Name p = "NodeData" ∧
        NodeDataPacket.Kind p = NodeDataMsg) ∧
    (∀ p : GetReceiptsPacket,
      GetReceiptsPacket.Name p = "GetReceipts" ∧
        GetReceiptsPacket.Kind p = GetReceiptsMsg) ∧
    (∀ p : ReceiptsPacket,
      ReceiptsPacket.Name p = "Receipts" ∧
        ReceiptsPacket.Kind p = ReceiptsMsg) ∧
    (∀ p : NewPooledTransactionHashesPacket,
      NewPooledTransactionHashesPacket.Name p = "NewPooledTransactionHashes" ∧
        NewPooledTransactionHashesPacket.Kind p =
          NewPooledTransactionHashesMsg) ∧
    (∀ p : GetPooledTransactionsPacket,
      GetPooledTransactionsPacket.Name p = "GetPooledTransactions" ∧
        GetPooledTransactionsPacket.Kind p = GetPooledTransactionsMsg) ∧
    (∀ p : PooledTransactionsPacket,
      PooledTransactionsPacket.Name p = "PooledTransactions" ∧
        PooledTransactionsPacket.Kind p = PooledTransactionsMsg) ∧
    (∀ p : GetBlockPacket,
      GetBlockPacket.Name p = "GetBlock" ∧
        GetBlockPacket.Kind p = GetBlockMsg) ∧
    (∀ p : GetOnePendingEtxsPacket,
      GetOnePendingEtxsPacket.Name p = "GetOnePendingEtxs" ∧
        GetOnePendingEtxsPacket.Kind p = GetOnePendingEtxsMsg) ∧
    (∀ p : PendingEtxsPacket,
      PendingEtxsPacket.Name p = "PendingEtxs" ∧
        PendingEtxsPacket.Kind p = PendingEtxsMsg) ∧
    (∀ p : PendingEtxsRollupPacket,
      PendingEtxsRollupPacket.Name p = "PendingEtxsManifest" ∧
        PendingEtxsRollupPacket.Kind p = PendingEtxsRollupMsg) :=
  ⟨fun _ => ⟨rfl, rfl⟩, fun _ => ⟨rfl, rfl⟩, fun _ => ⟨rfl, rfl⟩,
   fun _ => ⟨rfl, rfl⟩, fun _ => ⟨rfl, rfl⟩, fun _ => ⟨rfl, rfl⟩,
   fun _ => ⟨rfl, rfl⟩, fun _ => ⟨rfl, rfl⟩, fun _ => ⟨rfl, rfl⟩,
   fun _ => ⟨rfl, rfl⟩, fun _ => ⟨rfl, rfl⟩, fun _ => ⟨rfl, rfl⟩,
   fun _ => ⟨rfl, rfl⟩, fun _ => ⟨rfl, rfl⟩, fun _ => ⟨rfl, rfl⟩,
   fun _ => ⟨rfl, rfl⟩, fun _ => ⟨rfl, rfl⟩, fun _ => ⟨rfl, rfl⟩,
   fun _ => ⟨rfl, rfl⟩⟩
